import Mathlib

/-!
Verification of the geometric core of `Feria.py` (Triángulo Geográfico).

The planar geometry (`area_triangulo`, `clasificar_punto`), the Heron guard
of `main`, and the export projection (`exportar_a_json`) are embedded over
`ℚ`, idealising IEEE doubles as exact rationals; the geographic projection
(`transformacion_coordenada`), which uses `cos` and degree-to-radian
conversion, is embedded over `ℝ`.

A modelling point that matters below: `np.isclose(a, b, atol=eps)` keeps
numpy's default relative tolerance `rtol = 1e-5`, so its condition is
`|a - b| <= atol + rtol * |b|`.  For the boundary checks of
`clasificar_punto` the reference value is `0`, so the relative part
vanishes and the tolerance is purely absolute; for the interior check the
reference value is the triangle's area `A`, so the effective tolerance is
`1e-10 + 1e-5 * |A|`, which does scale with the triangle's size.
-/

namespace Feria

/-- The absolute tolerance `epsilon = 1e-10` of `clasificar_punto`. -/
def epsilon : ℚ := 1e-10

/-- numpy's default relative tolerance `rtol = 1e-5`, implicitly in force in
every `np.isclose(..., atol=epsilon)` call of `clasificar_punto`. -/
def rtol_defecto : ℚ := 1e-5

/-- `np.isclose(a, b, atol)` with numpy's default `rtol`:
`|a - b| <= atol + rtol * |b|`. -/
def np_isclose (a b atol : ℚ) : Prop :=
  |a - b| ≤ atol + rtol_defecto * |b|

instance (a b atol : ℚ) : Decidable (np_isclose a b atol) :=
  inferInstanceAs (Decidable (|a - b| ≤ atol + rtol_defecto * |b|))

/-- Determinant of the matrix `[[x1,x2,x3],[y1,y2,y3],[1,1,1]]` built by
`area_triangulo` (expansion along the first row). -/
def det3 (p1 p2 p3 : ℚ × ℚ) : ℚ :=
  p1.1 * (p2.2 - p3.2) - p2.1 * (p1.2 - p3.2) + p3.1 * (p1.2 - p2.2)

/-- `area_triangulo(p1, p2, p3) = 0.5 * |det [[x1,x2,x3],[y1,y2,y3],[1,1,1]]|`
(`Feria.py` lines 41-56). -/
def area_triangulo (p1 p2 p3 : ℚ × ℚ) : ℚ :=
  (1 / 2) * |det3 p1 p2 p3|

/-- `det3` really is the determinant of the 3x3 matrix the source builds. -/
lemma det3_eq_matrix_det (p1 p2 p3 : ℚ × ℚ) :
    det3 p1 p2 p3 =
      Matrix.det !![p1.1, p2.1, p3.1; p1.2, p2.2, p3.2; 1, 1, 1] := by
  rw [Matrix.det_fin_three]
  simp [det3, Matrix.cons_val_zero, Matrix.cons_val_one]
  ring

/-- `clasificar_punto(p, a, b, c)` (`Feria.py` lines 59-84).  With
`A = area_triangulo a b c`, `A1 = area_triangulo p b c`,
`A2 = area_triangulo a p c`, `A3 = area_triangulo a b p` and
`suma = A1 + A2 + A3`: if any sub-area is `np.isclose` to `0` the result is
`"Frontera"`; else if `suma` is `np.isclose` to `A` it is `"Interior"`;
else `"Exterior"`. -/
def clasificar_punto (p a b c : ℚ × ℚ) : String :=
  if np_isclose (area_triangulo p b c) 0 epsilon ∨
     np_isclose (area_triangulo a p c) 0 epsilon ∨
     np_isclose (area_triangulo a b p) 0 epsilon then "Frontera"
  else if np_isclose
      (area_triangulo p b c + area_triangulo a p c + area_triangulo a b p)
      (area_triangulo a b c) epsilon then "Interior"
  else "Exterior"

/-- Error raised by `main` on a triangle-inequality violation. -/
inductive ErrorTriangulo where
  | DegenerateTriangle : ErrorTriangulo
deriving DecidableEq

/-- The Heron radicand `s*(s-d1)*(s-d2)*(s-d3)` with `s = (d1+d2+d3)/2`, the
value whose square root `main` takes at `Feria.py` lines 367-368. -/
def heron_radicando (d1 d2 d3 : ℚ) : ℚ :=
  ((d1 + d2 + d3) / 2) * ((d1 + d2 + d3) / 2 - d1) *
    ((d1 + d2 + d3) / 2 - d2) * ((d1 + d2 + d3) / 2 - d3)

/-- Triangle establishment as `main` performs it (`Feria.py` lines 362-368):
the triangle-inequality guard runs first and aborts with
`DegenerateTriangle`; only on success is the Heron radicand (the input of
the square root) formed. -/
def establecer_triangulo (d1 d2 d3 : ℚ) : Except ErrorTriangulo ℚ :=
  if d1 + d2 ≤ d3 ∨ d2 + d3 ≤ d1 ∨ d3 + d1 ≤ d2 then
    Except.error ErrorTriangulo.DegenerateTriangle
  else
    Except.ok (heron_radicando d1 d2 d3)

/-- Degrees to radians, `np.radians`. -/
noncomputable def radianes (g : ℝ) : ℝ := g * Real.pi / 180

/-- `transformacion_coordenada(p, p0)` (`Feria.py` lines 11-38):
`x = R * dlon * cos((lat0 + lat1)/2)`, `y = R * dlat`, with `R = 6371000`
and all angles first converted to radians.  A point is the pair
`(latitude, longitude)` in degrees.  The source applies this formula to
every input unconditionally: it contains no range check. -/
noncomputable def transformacion_coordenada (p p0 : ℝ × ℝ) : ℝ × ℝ :=
  (6371000 * (radianes p.2 - radianes p0.2) *
      Real.cos ((radianes p0.1 + radianes p.1) / 2),
   6371000 * (radianes p.1 - radianes p0.1))

/-- Valid geographic coordinates: latitude in `[-90, 90]`, longitude in
`[-180, 180]`. -/
def coordenada_valida (p : ℝ × ℝ) : Prop :=
  -90 ≤ p.1 ∧ p.1 ≤ 90 ∧ -180 ≤ p.2 ∧ p.2 ≤ 180

/-- Collinearity of three planar points. -/
def colineales (p1 p2 p3 : ℚ × ℚ) : Prop :=
  (p2.1 - p1.1) * (p3.2 - p1.2) = (p3.1 - p1.1) * (p2.2 - p1.2)

instance (p1 p2 p3 : ℚ × ℚ) : Decidable (colineales p1 p2 p3) :=
  inferInstanceAs
    (Decidable ((p2.1 - p1.1) * (p3.2 - p1.2) = (p3.1 - p1.1) * (p2.2 - p1.2)))

/-- One row of the `df_puntos` DataFrame built by `crear_dataframes`. -/
structure PuntoTriangulo where
  nombre : String
  latitud : ℚ
  longitud : ℚ
  x_transf : ℚ
  y_transf : ℚ
  distancia_desde_origen : ℚ

/-- One row of the `df_clasificados` DataFrame built in `main`. -/
structure PuntoClasificado where
  nombre : String
  latitud : ℚ
  longitud : ℚ
  x_transf : ℚ
  y_transf : ℚ
  clasificacion : String

/-- The `datos_triangulo` dictionary of `main`. -/
structure DatosTriangulo where
  distancias : ℚ × ℚ × ℚ
  area_heron : ℚ
  area_determinante : ℚ

/-- The record written by `exportar_a_json`; `puntos_clasificados = none`
models the JSON key being absent. -/
structure DatosJson where
  fecha_creacion : String
  puntos : List PuntoTriangulo
  punto1_punto2 : ℚ
  punto2_punto3 : ℚ
  punto3_punto1 : ℚ
  perimetro : ℚ
  area_heron : ℚ
  area_determinante : ℚ
  puntos_clasificados : Option (List PuntoClasificado)

/-- `exportar_a_json` (`Feria.py` lines 271-306) as a pure projection: the
timestamp is a parameter, and the `puntos_clasificados` key is added only
when `df_clasificados` is neither `None` nor empty. -/
def exportar_a_json (fecha : String) (df_puntos : List PuntoTriangulo)
    (df_clasificados : Option (List PuntoClasificado))
    (datos : DatosTriangulo) : DatosJson :=
  { fecha_creacion := fecha
    puntos := df_puntos
    punto1_punto2 := datos.distancias.1
    punto2_punto3 := datos.distancias.2.1
    punto3_punto1 := datos.distancias.2.2
    perimetro := datos.distancias.1 + datos.distancias.2.1 + datos.distancias.2.2
    area_heron := datos.area_heron
    area_determinante := datos.area_determinante
    puntos_clasificados :=
      match df_clasificados with
      | none => none
      | some l => if l.isEmpty then none else some l }

/-- Forget the `puntos_clasificados` field of an export record. -/
def sin_clasificados (d : DatosJson) : DatosJson :=
  { d with puntos_clasificados := none }

/-! ### Permutation lemmas for `det3` and `area_triangulo` -/

lemma det3_rot (q r s : ℚ × ℚ) : det3 r s q = det3 q r s := by
  unfold det3; ring

lemma det3_rot2 (q r s : ℚ × ℚ) : det3 s q r = det3 q r s := by
  unfold det3; ring

lemma det3_swap12 (q r s : ℚ × ℚ) : det3 r q s = -det3 q r s := by
  unfold det3; ring

lemma det3_swap23 (q r s : ℚ × ℚ) : det3 q s r = -det3 q r s := by
  unfold det3; ring

lemma det3_swap13 (q r s : ℚ × ℚ) : det3 s r q = -det3 q r s := by
  unfold det3; ring

lemma area_rot (q r s : ℚ × ℚ) :
    area_triangulo r s q = area_triangulo q r s := by
  unfold area_triangulo; rw [det3_rot]

lemma area_rot2 (q r s : ℚ × ℚ) :
    area_triangulo s q r = area_triangulo q r s := by
  unfold area_triangulo; rw [det3_rot2]

lemma area_swap12 (q r s : ℚ × ℚ) :
    area_triangulo r q s = area_triangulo q r s := by
  unfold area_triangulo; rw [det3_swap12, abs_neg]

lemma area_swap23 (q r s : ℚ × ℚ) :
    area_triangulo q s r = area_triangulo q r s := by
  unfold area_triangulo; rw [det3_swap23, abs_neg]

lemma area_swap13 (q r s : ℚ × ℚ) :
    area_triangulo s r q = area_triangulo q r s := by
  unfold area_triangulo; rw [det3_swap13, abs_neg]

/-! ### Claim theorems -/

/-- C1 (amended).  When none of the sub-areas `A1, A2, A3` is `np.isclose`
to zero, `clasificar_punto` returns `"Interior"` if and only if
`|A1+A2+A3 - A| <= 1e-10 + 1e-5 * |A|`: because `np.isclose` keeps numpy's
default relative tolerance `rtol = 1e-5`, the interior tolerance is NOT
purely absolute — it scales with the reference area `A`. -/
theorem clasificar_interior_ssi_np_isclose (p a b c : ℚ × ℚ)
    (h1 : ¬ np_isclose (area_triangulo p b c) 0 epsilon)
    (h2 : ¬ np_isclose (area_triangulo a p c) 0 epsilon)
    (h3 : ¬ np_isclose (area_triangulo a b p) 0 epsilon) :
    clasificar_punto p a b c = "Interior" ↔
      |area_triangulo p b c + area_triangulo a p c + area_triangulo a b p -
          area_triangulo a b c| ≤
        epsilon + rtol_defecto * |area_triangulo a b c| := by
  have hng : ¬ (np_isclose (area_triangulo p b c) 0 epsilon ∨
      np_isclose (area_triangulo a p c) 0 epsilon ∨
      np_isclose (area_triangulo a b p) 0 epsilon) := by tauto
  unfold clasificar_punto
  rw [if_neg hng]
  by_cases hs : np_isclose
      (area_triangulo p b c + area_triangulo a p c + area_triangulo a b p)
      (area_triangulo a b c) epsilon
  · rw [if_pos hs]
    exact ⟨fun _ => hs, fun _ => rfl⟩
  · rw [if_neg hs]
    exact ⟨fun hE => absurd hE (by decide), fun hI => absurd hI hs⟩

/-- C1 witness: the interior point `(10,10)` of the triangle
`(0,0), (0,100), (100,0)` instantiates the amended equivalence. -/
theorem clasificar_interior_ssi_np_isclose_testigo :
    clasificar_punto (10, 10) (0, 0) (0, 100) (100, 0) = "Interior" ↔
      |area_triangulo (10, 10) (0, 100) (100, 0) +
          area_triangulo (0, 0) (10, 10) (100, 0) +
          area_triangulo (0, 0) (0, 100) (10, 10) -
          area_triangulo (0, 0) (0, 100) (100, 0)| ≤
        epsilon + rtol_defecto * |area_triangulo (0, 0) (0, 100) (100, 0)| :=
  clasificar_interior_ssi_np_isclose (10, 10) (0, 0) (0, 100) (100, 0)
    (by norm_num [np_isclose, area_triangulo, det3, epsilon, rtol_defecto,
      abs_of_nonneg, abs_of_nonpos])
    (by norm_num [np_isclose, area_triangulo, det3, epsilon, rtol_defecto,
      abs_of_nonneg, abs_of_nonpos])
    (by norm_num [np_isclose, area_triangulo, det3, epsilon, rtol_defecto,
      abs_of_nonneg, abs_of_nonpos])

/-- C1 counterexample.  For the triangle `(0,0), (0,100), (100,0)` (area
`5000`) and the exterior point `p = (50, 50.0001)`, no sub-area is close to
zero and `|A1+A2+A3 - A| = 0.01 > 1e-10`, yet `clasificar_punto` returns
`"Interior"`, because `0.01 <= 1e-10 + 1e-5 * 5000`: the claimed purely
absolute interior tolerance is false on the code. -/
theorem clasificar_interior_contraejemplo :
    (¬ np_isclose (area_triangulo (50, 500001 / 10000) (0, 100) (100, 0)) 0
        epsilon) ∧
    (¬ np_isclose (area_triangulo (0, 0) (50, 500001 / 10000) (100, 0)) 0
        epsilon) ∧
    (¬ np_isclose (area_triangulo (0, 0) (0, 100) (50, 500001 / 10000)) 0
        epsilon) ∧
    clasificar_punto (50, 500001 / 10000) (0, 0) (0, 100) (100, 0)
      = "Interior" ∧
    ¬ (|area_triangulo (50, 500001 / 10000) (0, 100) (100, 0) +
          area_triangulo (0, 0) (50, 500001 / 10000) (100, 0) +
          area_triangulo (0, 0) (0, 100) (50, 500001 / 10000) -
          area_triangulo (0, 0) (0, 100) (100, 0)| ≤ epsilon) := by
  refine ⟨?_, ?_, ?_, ?_, ?_⟩ <;>
    norm_num [clasificar_punto, np_isclose, area_triangulo, det3, epsilon,
      rtol_defecto, abs_of_nonneg, abs_of_nonpos]

/-- C2.  If any of the sub-areas `A1, A2, A3` is within the absolute
tolerance `1e-10` of zero (for a reference value of `0`, `np.isclose`'s
relative part vanishes), `clasificar_punto` returns `"Frontera"` and in
particular never `"Interior"`, the boundary check preceding the interior
check. -/
theorem clasificar_frontera_precede (p a b c : ℚ × ℚ)
    (h : np_isclose (area_triangulo p b c) 0 epsilon ∨
         np_isclose (area_triangulo a p c) 0 epsilon ∨
         np_isclose (area_triangulo a b p) 0 epsilon) :
    clasificar_punto p a b c = "Frontera" ∧
    clasificar_punto p a b c ≠ "Interior" := by
  have hf : clasificar_punto p a b c = "Frontera" := by
    unfold clasificar_punto
    rw [if_pos h]
  exact ⟨hf, by rw [hf]; decide⟩

/-- C2 witness: the edge midpoint `(0,50)` of the triangle
`(0,0), (0,100), (100,0)` has `A3 = 0` and classifies `"Frontera"`. -/
theorem clasificar_frontera_precede_testigo :
    clasificar_punto (0, 50) (0, 0) (0, 100) (100, 0) = "Frontera" ∧
    clasificar_punto (0, 50) (0, 0) (0, 100) (100, 0) ≠ "Interior" :=
  clasificar_frontera_precede (0, 50) (0, 0) (0, 100) (100, 0)
    (Or.inr (Or.inr (by
      norm_num [np_isclose, area_triangulo, det3, epsilon, rtol_defecto,
        abs_of_nonneg, abs_of_nonpos])))

/-- C3.  Whenever `d_i + d_j <= d_k` for one of the three side pairs (the
other pairings coincide with these by commutativity of addition), triangle
establishment fails with `DegenerateTriangle`; the guard runs before the
`Except.ok` branch, so the Heron radicand is never produced for a failing
triple. -/
theorem establecer_triangulo_degenerado (d1 d2 d3 : ℚ)
    (h : d1 + d2 ≤ d3 ∨ d2 + d3 ≤ d1 ∨ d3 + d1 ≤ d2) :
    establecer_triangulo d1 d2 d3 =
      Except.error ErrorTriangulo.DegenerateTriangle := by
  unfold establecer_triangulo
  rw [if_pos h]

/-- C3 witness: the spec's own failing triple `10, 10, 25`. -/
theorem establecer_triangulo_degenerado_testigo :
    establecer_triangulo 10 10 25 =
      Except.error ErrorTriangulo.DegenerateTriangle :=
  establecer_triangulo_degenerado 10 10 25 (by norm_num)

/-- C4.  For every valid origin (latitude in `[-90, 90]`, longitude in
`[-180, 180]`), projecting the origin onto itself yields exactly
`(0, 0)`. -/
theorem transformacion_origen_origen (o : ℝ × ℝ)
    (h : coordenada_valida o) :
    transformacion_coordenada o o = (0, 0) := by
  unfold transformacion_coordenada
  simp

/-- C4 witness: the valid origin `(4, 50)` projects onto itself to
`(0, 0)`. -/
theorem transformacion_origen_origen_testigo :
    coordenada_valida (4, 50) ∧
    transformacion_coordenada (4, 50) (4, 50) = (0, 0) :=
  ⟨by norm_num [coordenada_valida],
   transformacion_origen_origen (4, 50) (by norm_num [coordenada_valida])⟩

/-- C5.  `area_triangulo` is always non-negative, and it is zero exactly
when the three points are collinear. -/
theorem area_triangulo_nonneg_cero_ssi_colineales (p1 p2 p3 : ℚ × ℚ) :
    0 ≤ area_triangulo p1 p2 p3 ∧
    (area_triangulo p1 p2 p3 = 0 ↔ colineales p1 p2 p3) := by
  constructor
  · unfold area_triangulo
    positivity
  · unfold area_triangulo colineales
    rw [mul_eq_zero, abs_eq_zero]
    constructor
    · rintro (h | h)
      · norm_num at h
      · unfold det3 at h
        linear_combination h
    · intro h
      right
      unfold det3
      linear_combination h

/-- C6.  `area_triangulo` is invariant under the two cyclic permutations of
its arguments and, the absolute value swallowing the sign flip, also under
each of the three transpositions. -/
theorem area_triangulo_invariante_permutaciones (p1 p2 p3 : ℚ × ℚ) :
    area_triangulo p1 p2 p3 = area_triangulo p2 p3 p1 ∧
    area_triangulo p1 p2 p3 = area_triangulo p3 p1 p2 ∧
    area_triangulo p1 p2 p3 = area_triangulo p2 p1 p3 ∧
    area_triangulo p1 p2 p3 = area_triangulo p1 p3 p2 ∧
    area_triangulo p1 p2 p3 = area_triangulo p3 p2 p1 :=
  ⟨(area_rot p1 p2 p3).symm, (area_rot2 p1 p2 p3).symm,
   (area_swap12 p1 p2 p3).symm, (area_swap23 p1 p2 p3).symm,
   (area_swap13 p1 p2 p3).symm⟩

/-- C7.  End-to-end example on the planar triangle `(0,0), (0,100),
(100,0)`: area exactly `5000`; `(10,10)` is `"Interior"`, `(0,50)` is
`"Frontera"`, `(200,200)` is `"Exterior"`. -/
theorem ejemplo_triangulo_concreto :
    area_triangulo (0, 0) (0, 100) (100, 0) = 5000 ∧
    clasificar_punto (10, 10) (0, 0) (0, 100) (100, 0) = "Interior" ∧
    clasificar_punto (0, 50) (0, 0) (0, 100) (100, 0) = "Frontera" ∧
    clasificar_punto (200, 200) (0, 0) (0, 100) (100, 0) = "Exterior" := by
  refine ⟨?_, ?_, ?_, ?_⟩ <;>
    norm_num [clasificar_punto, np_isclose, area_triangulo, det3, epsilon,
      rtol_defecto, abs_of_nonneg, abs_of_nonpos]

/-- C8 counterexample.  The latitude `200` is invalid, yet the code does
not reject it: `transformacion_coordenada` (whose codomain has no error
case, faithfully to the source) processes it and yields the ordinary
planar point `(0, 0)` — no `InvalidCoordinate` rejection happens before
projection. -/
theorem transformacion_sin_validacion_contraejemplo :
    ¬ coordenada_valida (200, 0) ∧
    transformacion_coordenada (200, 0) (200, 0) = (0, 0) := by
  constructor
  · norm_num [coordenada_valida]
  · unfold transformacion_coordenada
    simp

/-- C8 (amended).  The code contains no latitude/longitude validation at
all: an out-of-range point is processed by the projection exactly like a
valid one — `project(o, o) = (0, 0)` also holds for invalid `o`, and the
projection of an invalid point against any origin is the unconditional
equirectangular formula, never an `InvalidCoordinate` error. -/
theorem transformacion_sin_validacion (o p0 : ℝ × ℝ)
    (h : ¬ coordenada_valida o) :
    transformacion_coordenada o o = (0, 0) ∧
    transformacion_coordenada o p0 =
      (6371000 * (radianes o.2 - radianes p0.2) *
          Real.cos ((radianes p0.1 + radianes o.1) / 2),
       6371000 * (radianes o.1 - radianes p0.1)) := by
  constructor
  · unfold transformacion_coordenada
    simp
  · rfl

/-- C8 witness: the invalid point `(200, 300)` flows through the
projection like any valid point. -/
theorem transformacion_sin_validacion_testigo :
    ¬ coordenada_valida (200, 300) ∧
    (transformacion_coordenada (200, 300) (200, 300) = (0, 0) ∧
     transformacion_coordenada (200, 300) (0, 0) =
       (6371000 * (radianes 300 - radianes 0) *
           Real.cos ((radianes 0 + radianes 200) / 2),
        6371000 * (radianes 200 - radianes 0))) :=
  ⟨by norm_num [coordenada_valida],
   transformacion_sin_validacion (200, 300) (0, 0)
     (by norm_num [coordenada_valida])⟩

/-- C9.  The export record carries the `puntos_clasificados` key exactly
when the classified-points sequence is non-empty, and every other field of
the record is independent of that sequence. -/
theorem exportar_clasificados_ssi_no_vacio (fecha : String)
    (df_puntos : List PuntoTriangulo) (l : List PuntoClasificado)
    (datos : DatosTriangulo) :
    ((exportar_a_json fecha df_puntos (some l) datos).puntos_clasificados
        ≠ none ↔ l ≠ []) ∧
    sin_clasificados (exportar_a_json fecha df_puntos (some l) datos) =
      sin_clasificados (exportar_a_json fecha df_puntos (some []) datos) := by
  constructor
  · cases l with
    | nil => simp [exportar_a_json]
    | cons x xs => simp [exportar_a_json]
  · rfl

/-- C10.  `clasificar_punto` is invariant under every permutation of its
three vertex arguments: the reference area and the multiset of sub-areas
are permutation-invariant, hence so is the returned classification. -/
theorem clasificar_punto_invariante_permutaciones (p a b c : ℚ × ℚ) :
    clasificar_punto p b c a = clasificar_punto p a b c ∧
    clasificar_punto p c a b = clasificar_punto p a b c ∧
    clasificar_punto p b a c = clasificar_punto p a b c ∧
    clasificar_punto p a c b = clasificar_punto p a b c ∧
    clasificar_punto p c b a = clasificar_punto p a b c := by
  refine ⟨?_, ?_, ?_, ?_, ?_⟩
  · unfold clasificar_punto
    rw [area_rot a p c, area_rot a b p, area_rot p b c, area_rot a b c,
      show area_triangulo a p c + area_triangulo a b p + area_triangulo p b c
          = area_triangulo p b c + area_triangulo a p c + area_triangulo a b p
        from by ring]
    exact if_congr (by tauto) rfl rfl
  · unfold clasificar_punto
    rw [area_rot2 a b p, area_rot2 p b c, area_rot2 a p c, area_rot2 a b c,
      show area_triangulo a b p + area_triangulo p b c + area_triangulo a p c
          = area_triangulo p b c + area_triangulo a p c + area_triangulo a b p
        from by ring]
    exact if_congr (by tauto) rfl rfl
  · unfold clasificar_punto
    rw [area_swap12 a p c, area_swap12 p b c, area_swap12 a b p,
      area_swap12 a b c,
      show area_triangulo a p c + area_triangulo p b c + area_triangulo a b p
          = area_triangulo p b c + area_triangulo a p c + area_triangulo a b p
        from by ring]
    exact if_congr (by tauto) rfl rfl
  · unfold clasificar_punto
    rw [area_swap23 p b c, area_swap23 a b p, area_swap23 a p c,
      area_swap23 a b c,
      show area_triangulo p b c + area_triangulo a b p + area_triangulo a p c
          = area_triangulo p b c + area_triangulo a p c + area_triangulo a b p
        from by ring]
    exact if_congr (by tauto) rfl rfl
  · unfold clasificar_punto
    rw [area_swap13 a b p, area_swap13 a p c, area_swap13 p b c,
      area_swap13 a b c,
      show area_triangulo a b p + area_triangulo a p c + area_triangulo p b c
          = area_triangulo p b c + area_triangulo a p c + area_triangulo a b p
        from by ring]
    exact if_congr (by tauto) rfl rfl

end Feria
